import Mathlib

/-!
Shallow embedding of `one.h` (namespace `one`): a header-only library that
keeps, per (value type, key-tuple type) pairing, a static registry of
currently claimed key tuples guarded by a `std::timed_mutex`, and two handle
kinds (`one`, indirect, owning or borrowing; `oneR`, inline, always owning)
whose constructors and initializers funnel through the claim protocol
`entrust` before binding a value instance.

The key tuple `std::tuple<Args...>` is modelled as an abstract type `κ` with
decidable structural equality; the registry's
`static std::vector<std::tuple<Args...>> list` is a `List κ`.  Serialized
(non-interleaved) execution is assumed throughout: the timed mutex is free
whenever an operation starts, so lock acquisition is modelled by a boolean
input `lockOk` (whether `try_lock_for` succeeds within the given timeout),
and the lock/unlock steps are recorded in an explicit event trace so that
ordering claims about the protocol can be stated.
-/

namespace OneH

/-- The two error kinds of the claim protocol: `throw exception_("There is
the same")` (DuplicateKey) and `throw exception_("Get lock the time out")`
(LockTimeout). -/
inductive EntrustError where
  | DuplicateKey
  | LockTimeout
deriving DecidableEq, Repr

/-- Observable steps performed by the library on the registry, the shared
timed mutex, and the bound instance.  `tryLockFor t ok` is
`mtx.try_lock_for(t)` returning `ok`; `lock` is the blocking `mtx.lock()`;
`insert` is `list.push_back`; `setData` is the handle's `data = make_tuple`;
`eraseKey` is the erase-remove call of the destructor; `destroyInstance` is
the destruction of the bound `T` instance (`delete ptr` inside
`retain::~retain`). -/
inductive Event (κ : Type) where
  | checkContains (k : κ) (result : Bool)
  | tryLockFor (timeoutMs : Nat) (ok : Bool)
  | lock
  | unlock
  | insert (k : κ)
  | setData (k : κ)
  | throwErr (e : EntrustError)
  | eraseKey (k : κ)
  | destroyInstance
deriving DecidableEq, Repr

/-- Lock acquisition (or acquisition attempt) events. -/
def isLockAcq {κ : Type} : Event κ → Bool
  | .tryLockFor _ _ => true
  | .lock => true
  | _ => false

namespace oneMethod

/-- `oneMethod::add`: `list.push_back(make_tuple(args...))`. -/
def add {κ : Type} (l : List κ) (k : κ) : List κ := l ++ [k]

/-- `oneMethod::verified`: `std::find(list.begin(), list.end(), t) != list.end()`,
i.e. membership under structural (element-wise) tuple equality. -/
def verified {κ : Type} [DecidableEq κ] (l : List κ) (k : κ) : Bool :=
  decide (k ∈ l)

/-- `std::remove(first, last, value)` followed by truncation at the returned
iterator: keeps, in order, exactly the elements not equal to `value`.
Written by recursion on the vector to mirror the element-wise pass. -/
def stdRemove {κ : Type} [DecidableEq κ] (k : κ) : List κ → List κ
  | [] => []
  | x :: xs => if x = k then stdRemove k xs else x :: stdRemove k xs

/-- `oneMethod::erase`: `list.erase(std::remove(list.begin(), list.end(), t), list.end())`
(the erase-remove idiom). -/
def erase {κ : Type} [DecidableEq κ] (l : List κ) (k : κ) : List κ :=
  stdRemove k l

end oneMethod

/-- Result of one call to the claim protocol: the outcome (`none` on
success), the registry list after the call, the handle's `data` member if it
was assigned, and the trace of observable events, in execution order. -/
structure EntrustResult (κ : Type) where
  outcome : Option EntrustError
  list : List κ
  dataSet : Option κ
  events : List (Event κ)
deriving DecidableEq, Repr

/-- Result of one `init` call: the boolean return value, the registry list
after the call, and whether a value instance was allocated/constructed
during the call. -/
structure InitOutcome (κ : Type) where
  ret : Bool
  list : List κ
  allocated : Bool
deriving DecidableEq, Repr

/-- Result of running a handle destructor: the registry list afterwards and
the trace of observable events, in execution order. -/
structure DtorResult (κ : Type) where
  list : List κ
  events : List (Event κ)
deriving DecidableEq, Repr

namespace one

/-- `one::entrust` (src/one.h lines 106-119): check `verified` (throwing
DuplicateKey if the key is already claimed, before any lock activity); then
`mtx.try_lock_for(t)` (throwing LockTimeout on failure); then `add`, then
`data = make_tuple(...)`, then `mtx.unlock()`. -/
def entrust {κ : Type} [DecidableEq κ] (l : List κ) (lockOk : Bool)
    (timeoutMs : Nat) (k : κ) : EntrustResult κ :=
  if oneMethod.verified l k then
    { outcome := some .DuplicateKey
      list := l
      dataSet := none
      events := [.checkContains k true, .throwErr .DuplicateKey] }
  else if lockOk then
    { outcome := none
      list := oneMethod.add l k
      dataSet := some k
      events := [.checkContains k false, .tryLockFor timeoutMs true,
                 .insert k, .setData k, .unlock] }
  else
    { outcome := some .LockTimeout
      list := l
      dataSet := none
      events := [.checkContains k false, .tryLockFor timeoutMs false,
                 .throwErr .LockTimeout] }

/-- `one::init` (src/one.h lines 154-194, all overloads share this shape):
`try { entrust(t, key); base = new ...; return true } catch (...) { return false }`.
The value type's construction is modelled as non-failing, matching the
spec's error model in which DuplicateKey and LockTimeout are the only
failure kinds; `allocated` records whether the `new` expression ran. -/
def init {κ : Type} [DecidableEq κ] (l : List κ) (lockOk : Bool)
    (timeoutMs : Nat) (k : κ) : InitOutcome κ :=
  let r := entrust l lockOk timeoutMs k
  match r.outcome with
  | some _ => { ret := false, list := r.list, allocated := false }
  | none => { ret := true, list := r.list, allocated := true }

/-- `one::~one` (src/one.h lines 196-201): `mtx.lock()`, then
`erase(std::move(data))`, then `delete base` (which destroys the bound `T`
instance exactly when the handle owns it: `retain::~retain` runs
`delete ptr`, while `package` leaves the borrowed object untouched), then
`mtx.unlock()`. -/
def dtor {κ : Type} [DecidableEq κ] (l : List κ) (dataKey : κ)
    (owning : Bool) : DtorResult κ :=
  { list := oneMethod.erase l dataKey
    events := [.lock, .eraseKey dataKey]
      ++ (if owning then [.destroyInstance] else []) ++ [.unlock] }

/-- The default timeout written in `one`'s constructors and initializers:
`5000min`, converted to milliseconds. -/
def defaultTimeoutMs : Nat := 5000 * 60 * 1000

end one

namespace oneR

/-- `oneR::entrust` (src/one.h lines 226-238): textually the same body as
`one::entrust`. -/
def entrust {κ : Type} [DecidableEq κ] (l : List κ) (lockOk : Bool)
    (timeoutMs : Nat) (k : κ) : EntrustResult κ :=
  if oneMethod.verified l k then
    { outcome := some .DuplicateKey
      list := l
      dataSet := none
      events := [.checkContains k true, .throwErr .DuplicateKey] }
  else if lockOk then
    { outcome := none
      list := oneMethod.add l k
      dataSet := some k
      events := [.checkContains k false, .tryLockFor timeoutMs true,
                 .insert k, .setData k, .unlock] }
  else
    { outcome := some .LockTimeout
      list := l
      dataSet := none
      events := [.checkContains k false, .tryLockFor timeoutMs false,
                 .throwErr .LockTimeout] }

/-- `oneR::init` (src/one.h lines 248-265):
`try { entrust(t, key); obj = T{...}; return true } catch (...) { return false }`;
`allocated` records whether the member assignment `obj = T{...}` ran. -/
def init {κ : Type} [DecidableEq κ] (l : List κ) (lockOk : Bool)
    (timeoutMs : Nat) (k : κ) : InitOutcome κ :=
  let r := entrust l lockOk timeoutMs k
  match r.outcome with
  | some _ => { ret := false, list := r.list, allocated := false }
  | none => { ret := true, list := r.list, allocated := true }

/-- `oneR::~oneR` (src/one.h lines 266-270): `mtx.lock()`, `erase(data)`,
`mtx.unlock()`; the inline member `obj` is destroyed afterwards by the
enclosing object's destruction, outside the destructor body. -/
def dtor {κ : Type} [DecidableEq κ] (l : List κ) (dataKey : κ) : DtorResult κ :=
  { list := oneMethod.erase l dataKey
    events := [.lock, .eraseKey dataKey, .unlock] }

/-- The default timeout written in `oneR`'s constructor and initializer
signatures: `std::chrono::milliseconds(5000U)`. -/
def defaultTimeoutMs : Nat := 5000

end oneR

/-- Modelled from the spec: `remove(key)` removes the first (and
expected-only) matching entry.  Reference definition for comparison with the
source's erase-remove idiom. -/
def eraseFirstSpec {κ : Type} [DecidableEq κ] : List κ → κ → List κ
  | [], _ => []
  | x :: xs, k => if x = k then xs else x :: eraseFirstSpec xs k

/-- A live handle of either kind, as ghost trace state: its `data` member
(the stored key tuple; a default-constructed handle holds the
default-constructed tuple) and whether it ever successfully ran `entrust`. -/
structure Handle (κ : Type) where
  data : κ
  claimed : Bool
deriving DecidableEq, Repr

/-- Global state of one (value type, key-tuple type) pairing under
serialized execution: the registry list plus the live handles. -/
structure SysState (κ : Type) where
  list : List κ
  live : List (Handle κ)
deriving DecidableEq, Repr

/-- Serialized transitions of the system.  Failed constructions and failed
`init` calls leave the state unchanged (no transition needed).  Since the
mutex is free between serialized operations, a successful `entrust` is any
call whose `verified` check fails; destruction always runs the erase-remove
call on the handle's `data` member, claimed or not. -/
inductive Step {κ : Type} [DecidableEq κ] [Inhabited κ] :
    SysState κ → SysState κ → Prop where
  | constructOk (s : SysState κ) (k : κ)
      (h : oneMethod.verified s.list k = false) :
      Step s ⟨oneMethod.add s.list k, ⟨k, true⟩ :: s.live⟩
  | constructDefault (s : SysState κ) :
      Step s ⟨s.list, ⟨default, false⟩ :: s.live⟩
  | reinitOk (l : List κ) (pre post : List (Handle κ)) (hdl : Handle κ)
      (k : κ) (h : oneMethod.verified l k = false) :
      Step ⟨l, pre ++ hdl :: post⟩ ⟨oneMethod.add l k, pre ++ ⟨k, true⟩ :: post⟩
  | destroy (l : List κ) (pre post : List (Handle κ)) (hdl : Handle κ) :
      Step ⟨l, pre ++ hdl :: post⟩ ⟨oneMethod.erase l hdl.data, pre ++ post⟩

/-- States reachable from the initial state (empty registry, no handles) by
serialized operations. -/
inductive Reachable {κ : Type} [DecidableEq κ] [Inhabited κ] :
    SysState κ → Prop where
  | start : Reachable ⟨[], []⟩
  | step {s t : SysState κ} : Reachable s → Step s t → Reachable t

section Lemmas

variable {κ : Type}

theorem nodup_add_of_not_mem {l : List κ} {k : κ} (hl : l.Nodup)
    (hk : k ∉ l) : (oneMethod.add l k).Nodup := by
  simp [oneMethod.add, List.nodup_append, hl, hk]

variable [DecidableEq κ]

theorem stdRemove_eq_filter (k : κ) (l : List κ) :
    oneMethod.stdRemove k l = l.filter (fun x => decide (x ≠ k)) := by
  induction l with
  | nil => rfl
  | cons x xs ih =>
      by_cases hx : x = k <;>
        simp [oneMethod.stdRemove, List.filter, hx, ih]

theorem mem_stdRemove_iff (k a : κ) (l : List κ) :
    a ∈ oneMethod.stdRemove k l ↔ a ∈ l ∧ a ≠ k := by
  rw [stdRemove_eq_filter]
  simp

theorem stdRemove_sublist (k : κ) (l : List κ) :
    List.Sublist (oneMethod.stdRemove k l) l := by
  rw [stdRemove_eq_filter]
  exact List.filter_sublist l

theorem verified_false_iff (l : List κ) (k : κ) :
    oneMethod.verified l k = false ↔ k ∉ l := by
  simp [oneMethod.verified]

end Lemmas

/-- C9: the indirect handle `one` defaults its lock-acquisition timeout to
5000 minutes (300000000 ms), the inline handle `oneR` to 5000 milliseconds;
the two defaults differ. -/
theorem default_timeouts_differ :
    one.defaultTimeoutMs = 300000000 ∧ oneR.defaultTimeoutMs = 5000 ∧
      one.defaultTimeoutMs ≠ oneR.defaultTimeoutMs := by
  refine ⟨rfl, rfl, ?_⟩
  decide

/-- C3 counterexample: on the list `[0, 0]` with key `0`, the source's
erase-remove call deletes both equal entries, whereas removing only the
first matching entry (the spec's reading, `eraseFirstSpec`) would leave
`[0]`. -/
theorem erase_not_eraseFirst :
    oneMethod.erase [0, 0] (0 : Nat) = [] ∧
      eraseFirstSpec [0, 0] (0 : Nat) = [0] ∧
      oneMethod.erase [0, 0] (0 : Nat) ≠ eraseFirstSpec [0, 0] (0 : Nat) := by
  refine ⟨rfl, rfl, ?_⟩
  decide

/-- C3 amended: `oneMethod::erase` removes every entry structurally equal to
the key, keeping all non-matching entries in their original order (it is the
filter of the list by disequality with the key, a subsequence of the
original list containing no occurrence of the key). -/
theorem erase_removes_all {κ : Type} [DecidableEq κ] (l : List κ) (k : κ) :
    oneMethod.erase l k = l.filter (fun x => decide (x ≠ k)) ∧
      k ∉ oneMethod.erase l k ∧
      List.Sublist (oneMethod.erase l k) l := by
  refine ⟨stdRemove_eq_filter k l, ?_, stdRemove_sublist k l⟩
  intro hmem
  exact ((mem_stdRemove_iff k k l).mp hmem).2 rfl

theorem entrust_outcome_none_iff {κ : Type} [DecidableEq κ] (l : List κ)
    (lockOk : Bool) (t : Nat) (k : κ) :
    (one.entrust l lockOk t k).outcome = none ↔ (k ∉ l ∧ lockOk = true) := by
  by_cases hv : k ∈ l <;> cases lockOk <;>
    simp [one.entrust, oneMethod.verified, hv]

/-- C2: the claim protocol first checks membership (the first event is
always the `contains` check); on a hit it fails with DuplicateKey, performs
no lock acquisition or acquisition attempt at all, and leaves the list
untouched; otherwise it attempts the timed lock with the caller-supplied
timeout, failing with LockTimeout if that fails; otherwise it appends the
key and then releases the lock (acquire, insert, release occur in this
order).  `oneR::entrust` behaves identically to `one::entrust`. -/
theorem entrust_protocol {κ : Type} [DecidableEq κ] (l : List κ)
    (lockOk : Bool) (t : Nat) (k : κ) :
    (one.entrust l lockOk t k).events.head? =
        some (.checkContains k (oneMethod.verified l k))
    ∧ (oneMethod.verified l k = true →
        (one.entrust l lockOk t k).outcome = some .DuplicateKey
        ∧ (one.entrust l lockOk t k).events.all (fun e => !isLockAcq e) = true
        ∧ (one.entrust l lockOk t k).list = l)
    ∧ (oneMethod.verified l k = false → lockOk = false →
        (one.entrust l lockOk t k).outcome = some .LockTimeout
        ∧ Event.tryLockFor t false ∈ (one.entrust l lockOk t k).events
        ∧ (one.entrust l lockOk t k).list = l)
    ∧ (oneMethod.verified l k = false → lockOk = true →
        (one.entrust l lockOk t k).outcome = none
        ∧ (one.entrust l lockOk t k).list = oneMethod.add l k
        ∧ List.Sublist [Event.tryLockFor t true, Event.insert k, Event.unlock]
            (one.entrust l lockOk t k).events)
    ∧ oneR.entrust l lockOk t k = one.entrust l lockOk t k := by
  refine ⟨?_, ?_, ?_, ?_, rfl⟩
  · by_cases hv : oneMethod.verified l k <;> cases lockOk <;>
      simp [one.entrust, hv]
  · intro hv
    simp [one.entrust, hv, isLockAcq]
  · intro hv hlk
    subst hlk
    simp [one.entrust, hv]
  · intro hv hlk
    subst hlk
    refine ⟨by simp [one.entrust, hv], by simp [one.entrust, hv], ?_⟩
    show List.Sublist _ (one.entrust l true t k).events
    simp only [one.entrust, hv, Bool.false_eq_true, if_false, if_true]
    exact .cons _ (.cons₂ _ (.cons₂ _ (.cons _ (.cons₂ _ .slnil))))

/-- Witness for C2 at a concrete input: key `0` absent from the empty list,
lock available. -/
theorem entrust_protocol_witness :
    oneMethod.verified ([] : List Nat) 0 = false ∧
      ((one.entrust ([] : List Nat) true 5 0).outcome = none
        ∧ (one.entrust ([] : List Nat) true 5 0).list = oneMethod.add [] 0
        ∧ List.Sublist
            [Event.tryLockFor 5 true, Event.insert (0 : Nat), Event.unlock]
            (one.entrust ([] : List Nat) true 5 0).events) :=
  ⟨by decide, (entrust_protocol [] true 5 0).2.2.2.1 (by decide) rfl⟩

/-- C4: whenever the claim protocol fails (DuplicateKey or LockTimeout,
i.e. any non-success outcome), the registry list is exactly what it was
before the attempt and the handle's `data` member was not assigned, for both
handle kinds. -/
theorem claim_failure_frame {κ : Type} [DecidableEq κ] (l : List κ)
    (lockOk : Bool) (t : Nat) (k : κ) :
    ((one.entrust l lockOk t k).outcome ≠ none →
      (one.entrust l lockOk t k).list = l
      ∧ (one.entrust l lockOk t k).dataSet = none)
    ∧ ((oneR.entrust l lockOk t k).outcome ≠ none →
      (oneR.entrust l lockOk t k).list = l) := by
  by_cases hv : oneMethod.verified l k <;> cases lockOk <;>
    simp [one.entrust, oneR.entrust, hv]

/-- Witness for C4 at a concrete input: key `0` already claimed, so the
attempt fails and the list is unchanged. -/
theorem claim_failure_frame_witness :
    (one.entrust [0] true 5 (0 : Nat)).outcome ≠ none ∧
      (one.entrust [0] true 5 (0 : Nat)).list = [0] ∧
      (one.entrust [0] true 5 (0 : Nat)).dataSet = none :=
  ⟨by decide, ((claim_failure_frame [0] true 5 0).1 (by decide)).1,
    ((claim_failure_frame [0] true 5 0).1 (by decide)).2⟩

/-- C5: `init` (on both handle kinds) reports failure as a boolean (it is a
total function of the inputs: the `catch (...)` swallows both error kinds),
returning `false` exactly when the claim fails; on the `false` path no value
instance was constructed and the registry list is unchanged, so retrying the
same handle is possible: if the failure was not a duplicate key, a retry
with the lock available succeeds. -/
theorem init_reports_bool {κ : Type} [DecidableEq κ] (l : List κ)
    (lockOk : Bool) (t : Nat) (k : κ) :
    ((one.init l lockOk t k).ret = false ↔
        (one.entrust l lockOk t k).outcome ≠ none)
    ∧ ((one.init l lockOk t k).ret = false →
        (one.init l lockOk t k).list = l
        ∧ (one.init l lockOk t k).allocated = false)
    ∧ ((one.init l lockOk t k).ret = true →
        (one.init l lockOk t k).list = oneMethod.add l k
        ∧ (one.init l lockOk t k).allocated = true)
    ∧ ((one.init l lockOk t k).ret = false → oneMethod.verified l k = false →
        (one.init (one.init l lockOk t k).list true t k).ret = true)
    ∧ oneR.init l lockOk t k = one.init l lockOk t k := by
  by_cases hv : oneMethod.verified l k <;> cases lockOk <;>
    simp [one.init, oneR.init, one.entrust, oneR.entrust, hv]

/-- Witness for C5 at a concrete input: key `0` already claimed, `init`
returns `false`, allocates nothing, leaves the list unchanged. -/
theorem init_reports_bool_witness :
    (one.init [0] true 5 (0 : Nat)).ret = false ∧
      (one.init [0] true 5 (0 : Nat)).list = [0] ∧
      (one.init [0] true 5 (0 : Nat)).allocated = false :=
  ⟨by decide, (init_reports_bool [0] true 5 0).2.1 (by decide)⟩

/-- Modelled from the spec: the destruction order claimed in C6 — acquire
the lock, remove the key, release the lock, and only then (if owning)
destroy the instance. -/
def dtorSpecEvents {κ : Type} (k : κ) (owning : Bool) : List (Event κ) :=
  [.lock, .eraseKey k, .unlock] ++ (if owning then [.destroyInstance] else [])

/-- C6 counterexample: for an owning handle the destructor destroys the
bound instance before releasing the lock (`delete base` precedes
`mtx.unlock()`), not after, so the event order differs from the claimed
lock-erase-unlock-destroy order at this concrete input. -/
theorem dtor_order_counterexample :
    (one.dtor [0] (0 : Nat) true).events ≠ dtorSpecEvents (0 : Nat) true ∧
      (one.dtor [0] (0 : Nat) true).events =
        [Event.lock, Event.eraseKey 0, Event.destroyInstance, Event.unlock] :=
  ⟨by decide, rfl⟩

/-- C6 amended: destruction performs, in order: unconditional blocking lock
acquisition, erase-removal of the handle's key, then — only if owning —
destruction of the bound instance, and then release of the lock; a borrowing
handle's destruction never destroys the externally owned instance. -/
theorem dtor_order {κ : Type} [DecidableEq κ] (l : List κ) (k : κ)
    (owning : Bool) :
    (one.dtor l k owning).events.head? = some Event.lock
    ∧ (one.dtor l k owning).list = oneMethod.erase l k
    ∧ (owning = true →
        (one.dtor l k owning).events =
          [Event.lock, Event.eraseKey k, Event.destroyInstance, Event.unlock])
    ∧ (owning = false →
        Event.destroyInstance ∉ (one.dtor l k owning).events) := by
  cases owning <;> simp [one.dtor]

/-- Witness for C6 (amended) at a concrete input, covering the owning and
the borrowing case. -/
theorem dtor_order_witness :
    (one.dtor [0] (0 : Nat) true).events =
        [Event.lock, Event.eraseKey 0, Event.destroyInstance, Event.unlock] ∧
      Event.destroyInstance ∉ (one.dtor [0] (0 : Nat) false).events :=
  ⟨(dtor_order [0] 0 true).2.2.1 rfl, (dtor_order [0] 0 false).2.2.2 rfl⟩

/-- C7: in every state reachable by serialized successful constructions,
initializations, and destructions, the registry's claimed-key list contains
no two equal entries. -/
theorem reachable_list_nodup {κ : Type} [DecidableEq κ] [Inhabited κ]
    {s : SysState κ} (h : Reachable s) : s.list.Nodup := by
  induction h with
  | start => simp
  | step hr hstep ih =>
      cases hstep with
      | constructOk s k hk =>
          exact nodup_add_of_not_mem ih ((verified_false_iff _ _).mp hk)
      | constructDefault s => exact ih
      | reinitOk l pre post hdl k hk =>
          exact nodup_add_of_not_mem ih ((verified_false_iff _ _).mp hk)
      | destroy l pre post hdl =>
          exact List.Nodup.sublist (stdRemove_sublist _ _) ih

/-- Witness for C7: the state after one successful construction is reachable
and its list is duplicate-free. -/
theorem reachable_list_nodup_witness :
    (⟨[0], [⟨0, true⟩]⟩ : SysState Nat).list.Nodup :=
  reachable_list_nodup
    (Reachable.step Reachable.start (Step.constructOk ⟨[], []⟩ 0 rfl))

/-- C8: constructing a handle with a fresh key `k` succeeds, and after its
destruction (the erase-remove call on `k`) a new construction with `k`
succeeds again — destruction releases the key for reuse. -/
theorem reuse_after_release {κ : Type} [DecidableEq κ] (l : List κ) (k : κ)
    (t u : Nat) (hk : k ∉ l) :
    (one.entrust l true t k).outcome = none ∧
      (one.entrust (oneMethod.erase (one.entrust l true t k).list k)
        true u k).outcome = none := by
  refine ⟨(entrust_outcome_none_iff l true t k).mpr ⟨hk, rfl⟩,
    (entrust_outcome_none_iff _ true u k).mpr ⟨?_, rfl⟩⟩
  intro hmem
  exact ((mem_stdRemove_iff _ _ _).mp hmem).2 rfl

/-- Witness for C8 at a concrete input: key `0`, empty registry. -/
theorem reuse_after_release_witness :
    (0 : Nat) ∉ ([] : List Nat) ∧
      ((one.entrust ([] : List Nat) true 5 0).outcome = none ∧
        (one.entrust
          (oneMethod.erase (one.entrust ([] : List Nat) true 5 0).list 0)
          true 5 0).outcome = none) :=
  ⟨by decide, reuse_after_release [] 0 5 5 (by decide)⟩

/-- C1 failing input: with key type `Nat`, construct handle A with key `0`;
default-construct handle B (which never claims anything but stores the
default-valued key tuple `0`); destroy B (its destructor erases every list
entry equal to `0`, i.e. A's claim); then construct handle C with key `0`.
The final construction's membership check finds nothing, so it succeeds
instead of failing with DuplicateKey, and the reachable final state holds
two live claimed handles with the equal key `0`. -/
theorem duplicate_live_handles_reachable :
    Reachable (⟨[0], [⟨0, true⟩, ⟨0, true⟩]⟩ : SysState Nat) ∧
      List.count (⟨0, true⟩ : Handle Nat)
        (⟨[0], [⟨0, true⟩, ⟨0, true⟩]⟩ : SysState Nat).live = 2 := by
  constructor
  · have s1 : Reachable (⟨[0], [⟨0, true⟩]⟩ : SysState Nat) :=
      Reachable.step Reachable.start (Step.constructOk ⟨[], []⟩ 0 rfl)
    have s2 : Reachable (⟨[0], [⟨0, false⟩, ⟨0, true⟩]⟩ : SysState Nat) :=
      Reachable.step s1 (Step.constructDefault ⟨[0], [⟨0, true⟩]⟩)
    have s3 : Reachable (⟨[], [⟨0, true⟩]⟩ : SysState Nat) :=
      Reachable.step s2 (Step.destroy [0] [] [⟨0, true⟩] ⟨0, false⟩)
    exact Reachable.step s3 (Step.constructOk ⟨[], [⟨0, true⟩]⟩ 0 rfl)
  · rfl

/-- C10: destroying a default-constructed, never-initialized handle runs the
full destruction path: the first event is the blocking lock acquisition, and
the erase-remove call deletes from the registry every entry equal to the
default-valued key tuple — in particular, if the default key was claimed
(by some other live handle), that claim is gone afterwards; the transition
is the same `destroy` step as for a claimed handle. -/
theorem default_dtor_erases_other_claim {κ : Type} [DecidableEq κ]
    [Inhabited κ] (l : List κ) (pre post : List (Handle κ)) (owning : Bool)
    (hmem : (default : κ) ∈ l) :
    (one.dtor l (default : κ) owning).events.head? = some Event.lock ∧
      ((default : κ) ∈ l ∧
        (default : κ) ∉ (one.dtor l (default : κ) owning).list) ∧
      Step (⟨l, pre ++ ⟨(default : κ), false⟩ :: post⟩ : SysState κ)
        ⟨(one.dtor l (default : κ) owning).list, pre ++ post⟩ := by
  refine ⟨rfl, ⟨hmem, ?_⟩, Step.destroy l pre post ⟨default, false⟩⟩
  intro hmem2
  exact ((mem_stdRemove_iff _ _ _).mp hmem2).2 rfl

/-- Witness for C10 at a concrete input: key type `Nat` (default key `0`),
registry `[0]` claimed by the live handle `⟨0, true⟩`. -/
theorem default_dtor_erases_other_claim_witness :
    (default : Nat) ∈ [0] ∧
      ((one.dtor [0] (default : Nat) false).events.head? = some Event.lock ∧
        ((default : Nat) ∈ [0] ∧
          (default : Nat) ∉ (one.dtor [0] (default : Nat) false).list) ∧
        Step (⟨[0], [] ++ ⟨(default : Nat), false⟩ :: [⟨0, true⟩]⟩ :
            SysState Nat)
          ⟨(one.dtor [0] (default : Nat) false).list, [] ++ [⟨0, true⟩]⟩) :=
  ⟨by decide,
    default_dtor_erases_other_claim [0] [] [⟨0, true⟩] false (by decide)⟩

end OneH
